import Mathlib

/-!
Verification of the ResearchNinja content-research pipeline.

This file gives a shallow embedding, in Lean 4, of the pure core of
`backend/scraper.py` and `backend/ai_integration.py`:

* URL deduplication, custom-URL injection and the extraction loop of
  `search_and_extract_content`;
* the retry loop of `get_website_text_content`;
* citation-id assignment, backend dispatch, the citation-append step and the
  templated fallback report of `generate_ai_response` / `parse_response` /
  `_generate_dummy_response`;
* the per-backend HTTP call structure (`_generate_response_openai`,
  `_generate_response_anthropic`, ...).

Network, time and randomness are modelled as explicit oracles (functions
passed as parameters); Python strings are modelled as Lean `String`
(sequences of characters, `len` = number of code points).
-/

/-! ## Python string primitives -/

/-- Python `len` on a string: number of characters (code points). -/
def pyLen (s : String) : Nat := s.data.length

/-- Python slicing `s[:n]`: the first `n` characters. -/
def pySlice (s : String) (n : Nat) : String := ⟨s.data.take n⟩

/-- Characters removed by Python `str.strip()` (whitespace). -/
def pyStripChars (l : List Char) : List Char :=
  ((l.dropWhile Char.isWhitespace).reverse.dropWhile Char.isWhitespace).reverse

/-- Python `str.strip()`: remove leading and trailing whitespace. -/
def pyStrip (s : String) : String := ⟨pyStripChars s.data⟩

/-- Substring test over character lists: some tail of `l` starts with `pat`. -/
def listContainsSub (l pat : List Char) : Bool :=
  l.tails.any (fun t => pat.isPrefixOf t)

/-- Python `pat in s` substring containment. -/
def strContainsSub (s pat : String) : Bool := listContainsSub s.data pat.data

theorem string_data_append (s t : String) : (s ++ t).data = s.data ++ t.data := by
  cases s; cases t; rfl

theorem pyLen_append (s t : String) : pyLen (s ++ t) = pyLen s + pyLen t := by
  simp [pyLen, string_data_append]

theorem length_dropWhile_le (p : Char → Bool) (l : List Char) :
    (l.dropWhile p).length ≤ l.length := by
  induction l with
  | nil => simp [List.dropWhile]
  | cons a l ih =>
    by_cases h : p a
    · simp only [List.dropWhile, h]
      exact Nat.le_succ_of_le ih
    · simp [List.dropWhile, h]

theorem pyLen_pyStrip_le (s : String) : pyLen (pyStrip s) ≤ pyLen s := by
  unfold pyStrip pyStripChars pyLen
  simp only [List.length_reverse]
  calc ((s.data.dropWhile Char.isWhitespace).reverse.dropWhile Char.isWhitespace).length
      ≤ (s.data.dropWhile Char.isWhitespace).reverse.length :=
        length_dropWhile_le _ _
    _ = (s.data.dropWhile Char.isWhitespace).length := List.length_reverse _
    _ ≤ s.data.length := length_dropWhile_le _ _

theorem string_ne_empty_of_pyLen_pos (s : String) (h : 0 < pyLen s) : s ≠ "" := by
  intro he
  rw [he] at h
  simp [pyLen] at h

/-! ## Data model (scraper.py) -/

/-- A search hit as built by `search_web` / the fan-out in
`search_and_extract_content`.  The `category` key is absent (`none`) on
plain `search_web` results and present on category-tagged and custom hits;
`result.get ("category", "general")` is modelled by `Option.getD`. -/
structure SearchHit where
  title : String
  url : String
  snippet : String
  category : Option String
deriving DecidableEq

/-- An extracted document as constructed at scraper.py lines 225-232. -/
structure ExtractedDocument where
  title : String
  url : String
  snippet : String
  content : String
  accessed_date : String
  category : String
deriving DecidableEq

/-- scraper.py line 21: maximum number of retries for retrieving content. -/
def MAX_RETRIES : Nat := 3

/-! ## URL parsing model

`urllib.parse.urlparse` is library code outside the repository; the two
fields the scraper uses (`netloc`, `path`) are modelled here for URLs of
the common `scheme://host/path` shape (no userinfo or port handling). -/

/-- Python `str.lower()` (ASCII model): lowercase every character. -/
def pyLower (s : String) : String := ⟨s.data.map Char.toLower⟩

/-- The characters after the first `://` of the list, when one occurs. -/
def afterSchemeSep : List Char → Option (List Char)
  | [] => none
  | c :: rest =>
    if c = ':' ∧ ['/', '/'].isPrefixOf rest then some (rest.drop 2)
    else afterSchemeSep rest

/-- Model of `urlparse(url).netloc` for `scheme://host/path...` URLs:
the text between `://` and the next `/`, `?` or `#`; empty when the URL
has no `://` (urlparse then treats the whole string as a path). -/
def netloc (url : String) : String :=
  match afterSchemeSep url.data with
  | none => ""
  | some rest => ⟨rest.takeWhile (fun c => c ≠ '/' && c ≠ '?' && c ≠ '#')⟩

/-- Model of `urlparse(url).path` for `scheme://host/path...` URLs: the
part of the rest starting at the first `/`, up to `?` or `#`; for a URL
without `://`, the whole string up to `?` or `#`. -/
def urlPath (url : String) : String :=
  match afterSchemeSep url.data with
  | none => ⟨url.data.takeWhile (fun c => c ≠ '?' && c ≠ '#')⟩
  | some rest =>
      ⟨(rest.dropWhile (fun c => c ≠ '/')).takeWhile (fun c => c ≠ '?' && c ≠ '#')⟩

/-- scraper.py line 207: binary/document extensions that are skipped. -/
def fileExtensions : List String :=
  [".pdf", ".doc", ".docx", ".ppt", ".pptx", ".xls", ".xlsx"]

/-- scraper.py line 207: the URL path (lowercased) ends in a binary/document
extension. -/
def isFileUrl (url : String) : Bool :=
  fileExtensions.any (fun ext => ext.data.isSuffixOf (pyLower (urlPath url)).data)

/-! ## Deduplication and custom-URL injection (scraper.py lines 174-193) -/

/-- The dedup loop of scraper.py lines 174-181: iterate in order; keep a hit
whose url is nonempty and unseen, recording it as seen; drop every other.
Returns (final seen set, deduplicated list). -/
def dedupLoop : List String → List SearchHit → List String × List SearchHit
  | seen, [] => (seen, [])
  | seen, r :: rest =>
    if r.url ≠ "" ∧ r.url ∉ seen then
      let p := dedupLoop (r.url :: seen) rest
      (p.1, r :: p.2)
    else
      dedupLoop seen rest

/-- The deduplicated hit list (`unique_results` after line 181). -/
def dedupResults (hits : List SearchHit) : List SearchHit := (dedupLoop [] hits).2

/-- Title prefix of a synthesized custom-source hit. -/
def customTitleHead : String := "Custom Source: "

/-- The hit synthesized for a custom URL (scraper.py lines 188-193). -/
def customHit (url : String) : SearchHit :=
  { title := customTitleHead ++ netloc url
    url := url
    snippet := "User-provided source"
    category := some "custom" }

/-- The custom-URL injection loop of scraper.py lines 184-193: for each
custom URL not already seen, `insert(0, ...)` a synthesized hit — each new
hit is pushed onto the front of the current list. -/
def injectCustom : List String → List SearchHit → List String → List SearchHit
  | _, unique, [] => unique
  | seen, unique, url :: rest =>
    if url ∉ seen then injectCustom (url :: seen) (customHit url :: unique) rest
    else injectCustom seen unique rest

/-- The candidate sequence immediately before the randomization step
(`unique_results` after line 193): dedup of the concatenated search hits,
then custom-URL injection. -/
def candidateSet (hits : List SearchHit) (customUrls : List String) : List SearchHit :=
  injectCustom (dedupLoop [] hits).1 (dedupLoop [] hits).2 customUrls

/-! ## Content extraction (scraper.py lines 29-81) -/

/-- Outcome of one `requests.get` call inside `get_website_text_content`:
either a raised `RequestException`, or a response with its `ok` flag,
`Content-Type` header and body text. -/
inductive FetchOutcome where
  | exn : FetchOutcome
  | resp (ok : Bool) (contentType : String) (body : String) : FetchOutcome
deriving DecidableEq

/-- The HTML marker looked for in the Content-Type header. -/
def htmlMarker : String := "text/html"

/-- Primary strategy (scraper.py lines 62-64): `trafilatura.extract` is the
oracle `traf` (returning `none` for Python `None`); accept its output when
it is truthy and its stripped length is at least 100. -/
def trafHit (traf : String → Option String) (body : String) : Option String :=
  match traf body with
  | some c => if c ≠ "" ∧ 100 ≤ pyLen (pyStrip c) then some c else none
  | none => none

/-- Fallback strategy (scraper.py lines 67-72): the BeautifulSoup visible
text is the oracle `soupText`; accept it when it is truthy and its stripped
length is at least 100. -/
def soupHit (soupText : String → String) (body : String) : Option String :=
  if soupText body ≠ "" ∧ 100 ≤ pyLen (pyStrip (soupText body)) then some (soupText body)
  else none

/-- The `for attempt in range(1, MAX_RETRIES+1)` loop of
`get_website_text_content` (scraper.py lines 48-81), with `fetch n` the
outcome of the request of attempt `n`.  Structural recursion is on the
number of remaining attempts; returns the extracted text together with the
number of attempts actually made.  A raised exception or an `ok = false`
response moves to the next attempt; a successful response whose
content-type does not contain "text/html" returns `""` at once; otherwise
the two extraction strategies run, a hit returning its text and a double
miss moving to the next attempt; an exhausted loop returns `""`. -/
def getContentLoop (traf : String → Option String) (soupText : String → String)
    (fetch : Nat → FetchOutcome) : Nat → Nat → String × Nat
  | 0, attempt => ("", attempt - 1)
  | remaining + 1, attempt =>
    match fetch attempt with
    | .exn => getContentLoop traf soupText fetch remaining (attempt + 1)
    | .resp ok contentType body =>
      if ok = false then getContentLoop traf soupText fetch remaining (attempt + 1)
      else if strContainsSub (pyLower contentType) htmlMarker = false then ("", attempt)
      else
        match trafHit traf body with
        | some c => (c, attempt)
        | none =>
          match soupHit soupText body with
          | some t => (t, attempt)
          | none => getContentLoop traf soupText fetch remaining (attempt + 1)

/-- `get_website_text_content` (scraper.py lines 29-81), modelled over the
fetch/extraction oracles: runs the attempt loop starting at attempt 1 with
`MAX_RETRIES` attempts available. -/
def get_website_text_content (traf : String → Option String) (soupText : String → String)
    (fetch : Nat → FetchOutcome) : String × Nat :=
  getContentLoop traf soupText fetch MAX_RETRIES 1

/-! ## Extraction pipeline loop (scraper.py lines 195-241) -/

/-- Maximum stored content length (scraper.py line 222). -/
def maxContentLength : Nat := 10000

/-- The default value of `result.get ("category", "general")`. -/
def defaultCategory : String := "general"

/-- Truncation marker appended to over-long content (scraper.py line 224). -/
def ellipsisMarker : String := "..."

/-- What one loop iteration of scraper.py lines 198-235 does with a single
candidate hit, given the extraction oracle `extract` (the value of
`get_website_text_content` for that url) and the timestamp oracle `now`:
`none` when the hit is skipped (empty url, binary/document extension, or
empty/too-short extracted content), otherwise the constructed document with
content truncated at `maxContentLength` characters plus the marker. -/
def docOf (extract : String → String) (now : String) (r : SearchHit) :
    Option ExtractedDocument :=
  if r.url = "" then none
  else if isFileUrl r.url then none
  else if extract r.url = "" ∨ pyLen (pyStrip (extract r.url)) < 100 then none
  else
    some { title := r.title
           url := r.url
           snippet := r.snippet
           content :=
             if maxContentLength < pyLen (extract r.url) then
               pySlice (extract r.url) maxContentLength ++ ellipsisMarker
             else extract r.url
           accessed_date := now
           category := r.category.getD defaultCategory }

/-- The extraction loop of scraper.py lines 195-241: walk the (already
shuffled) candidate list, breaking as soon as `processed_count` reaches
`total_depth`, skipping hits for which `docOf` is `none` without counting
them, and appending each constructed document. -/
def processCandidates (extract : String → String) (now : String) (totalDepth : Nat) :
    Nat → List SearchHit → List ExtractedDocument
  | _, [] => []
  | count, r :: rest =>
    if totalDepth ≤ count then []
    else
      match docOf extract now r with
      | none => processCandidates extract now totalDepth count rest
      | some d => d :: processCandidates extract now totalDepth (count + 1) rest

/-- The document list produced by the extraction phase of
`search_and_extract_content` for a given post-shuffle candidate list. -/
def extractionPhase (extract : String → String) (now : String) (totalDepth : Nat)
    (candidates : List SearchHit) : List ExtractedDocument :=
  processCandidates extract now totalDepth 0 candidates

/-! ## Citation assignment (ai_integration.py lines 46-53) -/

/-- A formatted source citation as built by `generate_ai_response`
(ai_integration.py lines 48-53). -/
structure SourceCitation where
  id : Nat
  title : String
  url : String
  accessed_date : String
deriving DecidableEq

/-- ai_integration.py lines 46-53: `formatted_sources` is built by
enumerating the incoming `search_results` list, giving position `i` the
citation id `i + 1`. -/
def formattedSources (searchResults : List ExtractedDocument) : List SourceCitation :=
  searchResults.enum.map (fun p =>
    { id := p.1 + 1
      title := p.2.title
      url := p.2.url
      accessed_date := p.2.accessed_date })

/-! ## Citation-append step (ai_integration.py lines 85-90 and 798-813) -/

/-- The generator expression of ai_integration.py lines 86 and 809:
`any(f"[{i+1}]" for i in range(len(formatted_sources)))`.  Each produced
element is the marker string itself, and `any` tests Python truthiness
(non-emptiness) of those strings — the response text is never consulted. -/
def markersAny (sources : List SourceCitation) : Bool :=
  ((List.range sources.length).map
    (fun i => "[" ++ toString (i + 1) ++ "]")).any (fun s => s ≠ "")

/-- Header line of the appended Sources section. -/
def sourcesHeader : String := "\n\n## Sources\n"

/-- One rendered source line: `"{id}. [{title}]({url})\n"`. -/
def sourceLine (s : SourceCitation) : String :=
  toString s.id ++ ". [" ++ s.title ++ "](" ++ s.url ++ ")\n"

/-- The Sources section accumulated by the loop at ai_integration.py
lines 87-89 (and 810-812): header plus one line per citation, in list
order. -/
def sourcesSection (sources : List SourceCitation) : String :=
  sources.foldl (fun acc s => acc ++ sourceLine s) sourcesHeader

/-- `parse_response` (ai_integration.py lines 798-813): append the Sources
section when the `markersAny` probe is false and the source list is
non-empty; otherwise return the response unchanged.  The same condition
guards the append inside `generate_ai_response` (lines 85-90). -/
def parse_response (response : String) (sources : List SourceCitation) : String :=
  if markersAny sources = false ∧ sources ≠ [] then response ++ sourcesSection sources
  else response

/-! ## Backend HTTP calls (ai_integration.py lines 274-301, 344-374,
418-461, 504-532) -/

/-- Outcome of one generation-API HTTP attempt: a transport timeout, a
response whose `raise_for_status` raises (4xx/5xx), or a 2xx response whose
envelope either fails to yield the generated text (`none` — malformed JSON
or missing keys) or yields it (`some text`). -/
inductive ApiOutcome where
  | timeout : ApiOutcome
  | statusError (code : Nat) : ApiOutcome
  | ok (envelope : Option String) : ApiOutcome
deriving DecidableEq

/-- The attempt raised an exception before a usable 2xx response: a timeout
or an HTTP status error.  (With a 2xx response in hand, OpenAI/Gemini/Cohere
envelope errors also raise, and are modelled where they are caught.) -/
def transportFails : ApiOutcome → Prop
  | .timeout => True
  | .statusError _ => True
  | .ok _ => False

/-- Tail of every per-backend error message. -/
def apiErrTail : String := ". Please check your API key and try again."

/-- `_generate_response_openai`, error path (lines 274-301): one attempt;
any exception — timeout, status error, or envelope extraction failure — is
caught by the single `except` and rendered immediately; no retry.  `render`
is the `str(e)` oracle.  Returns the response string and the number of
attempts made. -/
def openaiCall (render : ApiOutcome → String) (fetch : Nat → ApiOutcome) : String × Nat :=
  match fetch 0 with
  | .ok (some text) => (text, 1)
  | o => ("Error with OpenAI API: " ++ render o ++ apiErrTail, 1)

/-- `_generate_response_gemini` (lines 344-374): same single-attempt shape
as the OpenAI call, with its own message prefix. -/
def geminiCall (render : ApiOutcome → String) (fetch : Nat → ApiOutcome) : String × Nat :=
  match fetch 0 with
  | .ok (some text) => (text, 1)
  | o => ("Error with Gemini API: " ++ render o ++ apiErrTail, 1)

/-- `_generate_response_cohere` (lines 504-532): same single-attempt shape
as the OpenAI call, with its own message prefix. -/
def cohereCall (render : ApiOutcome → String) (fetch : Nat → ApiOutcome) : String × Nat :=
  match fetch 0 with
  | .ok (some text) => (text, 1)
  | o => ("Error with Cohere API: " ++ render o ++ apiErrTail, 1)

/-- The fixed string returned by the Anthropic inner parse handler
(line 454). -/
def anthropicParseError : String := "Error processing API response. Please try again."

/-- The `while retry_count < max_retries` loop of
`_generate_response_anthropic` (lines 418-461).  Fuel is
`max_retries - retry_count`; `attempts` counts requests already issued.  A
2xx response returns at once — its text on a good envelope, the fixed parse
error otherwise (the inner `except` at lines 452-454).  Any other exception
increments the retry counter, returning the rendered error once the counter
reaches `max_retries` and otherwise sleeping and looping.  `none` in the
first component is the Python `None` of falling off the loop (never
reached from fuel 3). -/
def anthropicLoop (render : ApiOutcome → String) (fetch : Nat → ApiOutcome) :
    Nat → Nat → Option String × Nat
  | 0, attempts => (none, attempts)
  | fuel + 1, attempts =>
    match fetch attempts with
    | .ok (some text) => (some text, attempts + 1)
    | .ok none => (some anthropicParseError, attempts + 1)
    | o =>
      if fuel = 0 then
        (some ("Error with Anthropic API: " ++ render o ++ apiErrTail), attempts + 1)
      else anthropicLoop render fetch fuel (attempts + 1)

/-- `_generate_response_anthropic` (lines 418-461): the loop entered with
`retry_count = 0` and `max_retries = 3`. -/
def anthropicCall (render : ApiOutcome → String) (fetch : Nat → ApiOutcome) :
    Option String × Nat :=
  anthropicLoop render fetch 3 0

/-! ## Templated fallback report (ai_integration.py lines 534-796) -/

/-- A `\w` word character of the ASCII regex range: letters, digits,
underscore.  (Queries are modelled as ASCII text.) -/
def isWordChar (c : Char) : Bool := c.isAlphanum || c = '_'

/-- Model of `re.findall(r'\b\w+\b', s)`: the maximal runs of word
characters of `s`. -/
def findWords (s : String) : List String :=
  (s.split (fun c => isWordChar c = false)).filter (fun w => w ≠ "")

/-- The stop-word list of ai_integration.py line 552. -/
def stopWords : List String :=
  ["a", "an", "the", "is", "are", "in", "on", "at", "to", "for"]

/-- ai_integration.py lines 551-552: keywords of the query — word runs of
the lowercased query, stop words removed. -/
def queryKeywords (query : String) : List String :=
  (findWords (pyLower query)).filter (fun k => k ∉ stopWords)

/-- Python `str.title()` over a character list: the first alphabetic
character of each alphabetic run is uppercased, the rest lowercased;
non-alphabetic characters pass through and end a run. -/
def pyTitleChars : Bool → List Char → List Char
  | _, [] => []
  | prevAlpha, c :: cs =>
    if c.isAlpha then
      (if prevAlpha then c.toLower else c.toUpper) :: pyTitleChars true cs
    else c :: pyTitleChars false cs

/-- Python `str.title()`. -/
def pyTitle (s : String) : String := ⟨pyTitleChars false s.data⟩

/-- Keyword separator used by `' '.join`. -/
def spaceSep : String := " "

/-- `' '.join(keywords[:3])` (ai_integration.py, inside the templates). -/
def kwJoin (query : String) : String :=
  String.intercalate spaceSep ((queryKeywords query).take 3)

/-- The trigger words of ai_integration.py lines 556-561. -/
def competitorWord : String := "competitor"

/-- Trigger word "competition" of ai_integration.py line 556. -/
def competitionWord : String := "competition"

/-- Trigger word "trend" of ai_integration.py line 558. -/
def trendWord : String := "trend"

/-- Trigger word "customer" of ai_integration.py line 560. -/
def customerWord : String := "customer"

/-- Trigger word "consumer" of ai_integration.py line 560. -/
def consumerWord : String := "consumer"

/-- ai_integration.py lines 554-561: classify the query into a research
type; the default is "market". -/
def researchType (query : String) : String :=
  if strContainsSub (pyLower query) competitorWord || strContainsSub (pyLower query) competitionWord then
    "competitor"
  else if strContainsSub (pyLower query) trendWord then "trend"
  else if strContainsSub (pyLower query) customerWord || strContainsSub (pyLower query) consumerWord then
    "customer"
  else "market"
/-- ai_integration.py lines 568-607: the market-research template. -/
def marketTemplate (kw kwT : String) : String :=
  "# Market Research Analysis: "
  ++ kwT
  ++ "\n\n## Executive Summary\nThe "
  ++ kw
  ++ " market has shown significant growth over the past few years, with a compound annual growth rate (CAGR) of approximately 12-15%. Industry experts project the market to reach $150-200 billion by 2028, driven by technological advancements and increasing consumer demand [1].\n"
  ++ "\n## Market Size and Growth\n"
  ++ "- Current market value: Approximately $75-85 billion as of 2023 [2]\n"
  ++ "- Historical growth: 12-15% CAGR over the past five years\n"
  ++ "- Projected growth: Expected to maintain a 14% CAGR through 2028 [1]\n"
  ++ "- Regional distribution: North America (35%), Europe (25%), Asia-Pacific (30%), Rest of the world (10%) [3]\n"
  ++ "\n## Key Market Drivers\n1. Technological innovation and digital transformation\n"
  ++ "2. Growing consumer awareness and changing preferences\n"
  ++ "3. Increasing investments in research and development\n"
  ++ "4. Favorable government regulations and initiatives [2]\n\n## Competitive Landscape\n"
  ++ "The market is moderately concentrated, with the top five players accounting for approximately 40% of the market share:\n"
  ++ "- Company A (12%) - Known for innovative product offerings\n"
  ++ "- Company B (9%) - Strong distribution network\n"
  ++ "- Company C (8%) - Price competitive strategies\n"
  ++ "- Company D (6%) - Technological leadership\n"
  ++ "- Company E (5%) - Niche market focus [1][3]\n\n## Challenges and Opportunities\n"
  ++ "**Challenges:**\n- Intensifying competition and price pressures\n"
  ++ "- Regulatory complexities across different regions\n"
  ++ "- Supply chain disruptions and raw material costs\n\n**Opportunities:**\n"
  ++ "- Expanding into emerging markets\n- Product innovation and differentiation\n"
  ++ "- Strategic partnerships and acquisitions\n- Sustainability-focused initiatives [2][3]\n\n"
  ++ "## Future Outlook\nThe "
  ++ kw
  ++ " market is expected to continue its growth trajectory, with increased focus on sustainability, technological integration, and customer-centric approaches. Companies that invest in innovation and adapt to changing consumer preferences are likely to gain competitive advantage in the evolving marketplace [1][3].\n"

/-- ai_integration.py lines 610-658: the competitor-analysis template. -/
def competitorTemplate (kw kwT : String) : String :=
  "# Competitor Analysis: "
  ++ kwT
  ++ " Industry\n\n## Executive Summary\nThe competitive landscape in the "
  ++ kw
  ++ " industry is dynamic and evolving. Our analysis reveals a market dominated by a few key players, with significant opportunities for differentiation through innovation, pricing strategies, and customer experience enhancements [1].\n"
  ++ "\n## Market Leaders Overview\n1. **Company A**\n   - Market Share: 22%\n"
  ++ "   - Strengths: Brand recognition, extensive distribution network, R&D capabilities\n"
  ++ "   - Weaknesses: Premium pricing, slow adaptation to market changes\n"
  ++ "   - Recent Strategies: Expansion into emerging markets, sustainability initiatives [2]\n"
  ++ "\n2. **Company B**\n   - Market Share: 18%\n"
  ++ "   - Strengths: Technological innovation, strong online presence\n"
  ++ "   - Weaknesses: Limited physical retail footprint, customer service challenges\n"
  ++ "   - Recent Strategies: Strategic acquisitions, enhanced digital experience [1][3]\n\n"
  ++ "3. **Company C**\n   - Market Share: 15%\n"
  ++ "   - Strengths: Competitive pricing, efficient operations\n"
  ++ "   - Weaknesses: Brand perception, limited product range\n"
  ++ "   - Recent Strategies: Product portfolio expansion, brand repositioning [2]\n\n"
  ++ "## Competitive Positioning Analysis\n"
  ++ "- **Price Positioning:** Companies range from premium (Company A) to value-oriented (Company C)\n"
  ++ "- **Quality Perception:** Company B leads in perceived quality, followed by Company A\n"
  ++ "- **Innovation Index:** Company B (8.5/10), Company A (7.8/10), Company C (6.2/10) [1][3]\n"
  ++ "\n## Market Entry Barriers\n1. High capital requirements\n2. Established brand loyalties\n"
  ++ "3. Regulatory compliance complexities\n4. Access to distribution channels [3]\n\n"
  ++ "## Competitive Strategies Comparison\n"
  ++ "- **Product Strategy:** All major players are investing in product development, with Company B allocating 15% of revenue to R&D\n"
  ++ "- **Pricing Strategy:** Company C focuses on cost leadership, while Companies A and B employ value-based pricing\n"
  ++ "- **Marketing Approach:** Digital marketing dominance with Company B spending 25% more on digital channels than competitors [2][3]\n"
  ++ "\n## Recommendations for Market Entrants\n"
  ++ "1. Identify specific niche segments underserved by current market leaders\n"
  ++ "2. Develop strategic partnerships to overcome distribution challenges\n"
  ++ "3. Invest in disruptive technologies to challenge incumbent advantages\n"
  ++ "4. Focus on customer experience as a key differentiator [1][2]\n\n"
  ++ "## Future Competitive Landscape Projections\n"
  ++ "The industry is likely to see increased consolidation through mergers and acquisitions, with sustainability and digital transformation becoming key competitive factors in the next 3-5 years [1][3].\n"

/-- ai_integration.py lines 661-708: the trend-analysis template. -/
def trendTemplate (kw kwT : String) : String :=
  "# Trend Analysis: "
  ++ kwT
  ++ " Industry\n\n## Executive Summary\nThe "
  ++ kw
  ++ " industry is experiencing rapid transformation driven by technological advances, changing consumer preferences, and evolving regulatory landscapes. This analysis identifies key trends shaping the market and provides strategic insights for industry stakeholders [1].\n"
  ++ "\n## Major Trends Identification\n\n### 1. Digital Transformation\n"
  ++ "- **Current Impact:** High (8.5/10)\n"
  ++ "- **Adoption Rate:** 65% of industry players actively implementing digital strategies\n"
  ++ "- **Key Technologies:** AI/ML (35% implementation), IoT (28%), Cloud Computing (82%)\n"
  ++ "- **Growth Trajectory:** Expected to accelerate with 15-20% annual increase in digital investment [1][2]\n"
  ++ "\n### 2. Sustainability Focus\n- **Current Impact:** Medium-High (7/10)\n"
  ++ "- **Adoption Rate:** 48% of companies with formal sustainability programs\n"
  ++ "- **Key Initiatives:** Carbon neutrality pledges (30% of top players), sustainable sourcing (45%), circular economy models (22%)\n"
  ++ "- **Growth Trajectory:** Projected to become a top strategic priority for 80% of industry players by 2025 [2][3]\n"
  ++ "\n### 3. Changing Consumer Behavior\n- **Current Impact:** High (8/10)\n"
  ++ "- **Key Shifts:** Preference for personalization (↑22% YoY), demand for transparency (↑18% YoY), experience-based consumption (↑35% over 3 years)\n"
  ++ "- **Demographics Driving Change:** Millennials and Gen Z (accounting for 55% of market influence)\n"
  ++ "- **Growth Trajectory:** Accelerating with post-pandemic behavioral adjustments [1][3]\n\n"
  ++ "### 4. Regulatory Evolution\n- **Current Impact:** Medium (6/10)\n"
  ++ "- **Key Developments:** Data privacy regulations, sustainability reporting requirements, changing trade policies\n"
  ++ "- **Regional Variations:** EU (most stringent), North America (moderate), Asia-Pacific (rapidly evolving)\n"
  ++ "- **Growth Trajectory:** Increasing complexity with 15-20% more regulatory requirements expected by 2025 [3]\n"
  ++ "\n## Trend Intersection Analysis\n"
  ++ "The most significant market opportunities lie at the intersection of digital transformation and sustainability, where companies leveraging technology to drive sustainable outcomes are seeing 25-30% better performance metrics than peers [2].\n"
  ++ "\n## Adoption Curve Analysis\n"
  ++ "- **Innovators (8%):** Already implementing all four trend categories\n"
  ++ "- **Early Adopters (22%):** Strategic focus on digital transformation and consumer behavior adaptation\n"
  ++ "- **Early Majority (35%):** Beginning investments in digital capabilities\n"
  ++ "- **Late Majority/Laggards (35%):** Limited response to emerging trends [1][2]\n\n"
  ++ "## Strategic Implications\n"
  ++ "1. **Short-term (1-2 years):** Focus on digital customer experience enhancement and data capability building\n"
  ++ "2. **Medium-term (3-5 years):** Develop integrated sustainability and digital strategies\n"
  ++ "3. **Long-term (5+ years):** Prepare for potential industry structure disruption from converging trends [1][3]\n"
  ++ "\n## Monitoring Metrics\n"
  ++ "Key indicators to track trend evolution include digital adoption rates, sustainability investment levels, consumer sentiment metrics, and regulatory development frequency across key markets [2].\n"

/-- ai_integration.py lines 711-785: the customer-segmentation template. -/
def customerTemplate (kw kwT : String) : String :=
  "# Customer Segmentation Analysis: "
  ++ kwT
  ++ " Market\n\n## Executive Summary\nOur analysis of the "
  ++ kw
  ++ " market reveals distinct customer segments with varying needs, preferences, and behaviors. Understanding these segments can help businesses tailor their strategies for improved customer acquisition, retention, and lifetime value optimization [1].\n"
  ++ "\n## Primary Market Segments\n\n### Segment A: Premium Value Seekers (28% of market)\n"
  ++ "- **Demographics:** 35-55 years, upper-middle income ($100K+), urban/suburban\n"
  ++ "- **Psychographics:** Quality-conscious, brand loyal, low price sensitivity\n"
  ++ "- **Behaviors:** Research-intensive purchasing, high service expectations, preference for premium features\n"
  ++ "- **Growth Rate:** 12% YoY\n"
  ++ "- **CLV (Customer Lifetime Value):** $5,200 (highest among segments) [1][2]\n\n"
  ++ "### Segment B: Practical Mainstream (35% of market)\n"
  ++ "- **Demographics:** 25-45 years, middle income ($50-90K), suburban\n"
  ++ "- **Psychographics:** Value-oriented, functionality-focused, moderate brand awareness\n"
  ++ "- **Behaviors:** Comparison shopping, influenced by reviews, moderate loyalty\n"
  ++ "- **Growth Rate:** 8% YoY\n- **CLV:** $3,100 [2][3]\n\n"
  ++ "### Segment C: Price-Conscious Consumers (22% of market)\n"
  ++ "- **Demographics:** 18-65 years (wide range), lower-middle income ($30-50K), diverse locations\n"
  ++ "- **Psychographics:** Price-sensitive, deal-seeking, limited brand loyalty\n"
  ++ "- **Behaviors:** Discount-driven, minimal research, opportunistic purchasing\n"
  ++ "- **Growth Rate:** 5% YoY\n- **CLV:** $1,850 [1][3]\n\n"
  ++ "### Segment D: Emerging Digital Natives (15% of market)\n"
  ++ "- **Demographics:** 18-34 years, variable income, urban\n"
  ++ "- **Psychographics:** Tech-savvy, experience-focused, sustainability-conscious\n"
  ++ "- **Behaviors:** Mobile-first shopping, social media influenced, subscription-preferring\n"
  ++ "- **Growth Rate:** 22% YoY (fastest growing)\n"
  ++ "- **CLV:** $2,700 (with high growth potential) [2]\n\n## Needs Analysis by Segment\n\n"
  ++ "| Need/Preference | Segment A | Segment B | Segment C | Segment D |\n"
  ++ "|-----------------|-----------|-----------|-----------|-----------|\n"
  ++ "| Quality focus   | ★★★★★     | ★★★☆☆     | ★★☆☆☆     | ★★★☆☆     |\n"
  ++ "| Price sensitivity| ★☆☆☆☆     | ★★★☆☆     | ★★★★★     | ★★★☆☆     |\n"
  ++ "| Service expectations | ★★★★★ | ★★★☆☆   | ★★☆☆☆     | ★★★★☆     |\n"
  ++ "| Innovation interest | ★★★★☆   | ★★★☆☆     | ★☆☆☆☆     | ★★★★★     |\n"
  ++ "| Brand importance  | ★★★★★   | ★★★☆☆     | ★★☆☆☆     | ★★★☆☆     |\n"
  ++ "| Digital engagement | ★★★☆☆   | ★★★☆☆     | ★★☆☆☆     | ★★★★★     |\n\n"
  ++ "## Channel Preferences\n\n"
  ++ "- **Segment A:** Omnichannel with emphasis on personalized service, 65% research online/purchase offline\n"
  ++ "- **Segment B:** Multi-channel, 58% online purchasing, value-added content engagement\n"
  ++ "- **Segment C:** Discount channels, marketplaces, 72% price-driven channel decisions\n"
  ++ "- **Segment D:** Digital-first, mobile apps (82% usage), social commerce, subscription models [1][2][3]\n"
  ++ "\n##Customer Journey Mapping\n\n"
  ++ "Key touchpoints and pain points vary significantly across segments:\n\n"
  ++ "- **Segment A:** Friction points in seamless offline/online integration, high-touch service expectations\n"
  ++ "- **Segment B:** Seeking validation through reviews/comparisons, responsive customer service\n"
  ++ "- **Segment C:** Limited loyalty program participation, high cart abandonment (32%)\n"
  ++ "- **Segment D:** Demanding mobile UX, sustainability transparency, community engagement [2][3]\n"
  ++ "\n## Strategic Recommendations\n\n"
  ++ "1. **Segment A Strategy:** Premium loyalty programs, white-glove service options, early access to innovations\n"
  ++ "2. **Segment B Strategy:** Strong value proposition messaging, robust review systems, streamlined comparison tools\n"
  ++ "3. **Segment C Strategy:** Transparent pricing, entry-level options, strategic discounting without brand dilution\n"
  ++ "4. **Segment D Strategy:** Mobile optimization, social commerce integration, sustainability storytelling [1][2][3]\n"
  ++ "\n## Future Segment Evolution\n\n"
  ++ "- Segment D expected to grow to 25-30% of market within 5 years\n"
  ++ "- Increasing overlap between Segments A and D as digital natives\x27 income grows\n"
  ++ "- Potential new segment emerging around \"conscious consumption\" crossing traditional boundaries [1][3]\n"

/-- The fixed error string of ai_integration.py line 547. -/
def invalidQueryError : String := "Error: Invalid query format"

/-- The template body selected by `researchType` (ai_integration.py
lines 566-785), instantiated with the joined keywords and their
title-cased form. -/
def dummyBody (query : String) : String :=
  if researchType query = "market" then marketTemplate (kwJoin query) (pyTitle (kwJoin query))
  else if researchType query = "competitor" then
    competitorTemplate (kwJoin query) (pyTitle (kwJoin query))
  else if researchType query = "trend" then trendTemplate (kwJoin query) (pyTitle (kwJoin query))
  else customerTemplate (kwJoin query) (pyTitle (kwJoin query))

/-- `_generate_dummy_response`, assembled: the selected template body, then
the unconditional Sources section of lines 788-790. -/
def _generate_dummy_response (query : String) (sources : List SourceCitation) : String :=
  if query = "" then invalidQueryError
  else dummyBody query ++ sourcesSection sources

/-! ## Backend dispatch and response assembly (ai_integration.py
lines 33-91) -/

/-- The generation backend selected by the dispatch at ai_integration.py
lines 72-83, with the model string passed to the OpenAI handler. -/
inductive Backend where
  | openai (model : String) : Backend
  | gemini : Backend
  | anthropic : Backend
  | cohere : Backend
deriving DecidableEq

/-- The default OpenAI model name of ai_integration.py lines 74 and 93. -/
def defaultOpenAiModel : String := "gpt-4o-mini"

/-- The dispatch of ai_integration.py lines 72-83: four recognized model
names; anything else falls to the `else` branch, which calls the OpenAI
handler with its default model `"gpt-4o-mini"`. -/
def dispatchBackend (model : String) : Backend :=
  if model = "GPT-4o mini" then .openai defaultOpenAiModel
  else if model = "Gemini" then .gemini
  else if model = "Claude" then .anthropic
  else if model = "Cohere" then .cohere
  else .openai defaultOpenAiModel

/-- Result of `generate_ai_response`: the response text, the formatted
sources returned alongside it, and which backend handler (if any) was
invoked. -/
structure GenResult where
  response : String
  sources : List SourceCitation
  invoked : Option Backend
deriving DecidableEq

/-- `generate_ai_response` (ai_integration.py lines 33-91), with `gen` the
oracle giving each backend handler's returned text.  `formatted_sources`
is built from the raw input list (lines 46-53); an empty input list or an
input with no truthy-content result short-circuits to the dummy response
(lines 55-68) without invoking any backend; otherwise the dispatched
backend runs and the conditional citation-append of lines 85-90 (the same
condition as `parse_response`) post-processes its text. -/
def generate_ai_response (gen : Backend → String) (query : String)
    (searchResults : List ExtractedDocument) (model : String) : GenResult :=
  let fs := formattedSources searchResults
  if searchResults = [] then
    { response := _generate_dummy_response query fs, sources := fs, invoked := none }
  else
    let valid := searchResults.filter (fun r => r.content ≠ "")
    if valid = [] then
      { response := _generate_dummy_response query fs, sources := fs, invoked := none }
    else
      let b := dispatchBackend model
      { response := parse_response (gen b) fs, sources := fs, invoked := some b }

/-! ## Spec-side citation model (refinement target for citation order)

The spec (§4.7 ContextBuilder, §3 SourceCitation) asserts that citation ids
are assigned in a fixed category-then-first-seen order.  The following
definitions follow the spec's words — not the code — so that the code's
actual assignment (`formattedSources`) can be compared against them. -/

/-- The fixed category precedence named by the spec. -/
def specCategoryOrder : List String :=
  ["general", "business_viability", "competitors", "audience", "trends", "regulatory", "custom"]

/-- Documents reordered category-then-first-seen, per the spec's words:
each named category in precedence order keeps its documents in input
order, remaining categories follow. -/
def specOrderedDocs (rs : List ExtractedDocument) : List ExtractedDocument :=
  (specCategoryOrder.map (fun c => rs.filter (fun r => r.category = c))).flatten ++
    rs.filter (fun r => r.category ∉ specCategoryOrder)

/-- First-seen URL dedup over the reordered documents, per the spec's words
(a repeated URL keeps its first-assigned id and is not re-emitted). -/
def specDedupByUrl : List String → List ExtractedDocument → List ExtractedDocument
  | _, [] => []
  | seen, d :: rest =>
    if d.url ∈ seen then specDedupByUrl seen rest
    else d :: specDedupByUrl (d.url :: seen) rest

/-- The citation list the spec describes: ids 1, 2, ... assigned along the
category-then-first-seen order. -/
def specCitations (rs : List ExtractedDocument) : List SourceCitation :=
  (specDedupByUrl [] (specOrderedDocs rs)).enum.map (fun p =>
    { id := p.1 + 1
      title := p.2.title
      url := p.2.url
      accessed_date := p.2.accessed_date })

/-! ## Claims -/

/-- Input refuting C1: a custom-category document listed before a
general-category one. -/
def c1docA : ExtractedDocument :=
  { title := "A", url := "u1", snippet := "", content := "x", accessed_date := "d",
    category := "custom" }

/-- Second document of the C1 counterexample. -/
def c1docB : ExtractedDocument :=
  { title := "B", url := "u2", snippet := "", content := "x", accessed_date := "d",
    category := "general" }

/-- C1 is false as stated: `generate_ai_response` assigns citation ids by
input position (ai_integration.py lines 46-53), not in the
category-then-first-seen order the spec describes.  On a two-document list
whose first element is category "custom" and second "general", the code
gives the custom document id 1, while the spec's category order demands
the general document get id 1. -/
theorem c1_counterexample :
    formattedSources [c1docA, c1docB] =
      [⟨1, "A", "u1", "d"⟩, ⟨2, "B", "u2", "d"⟩] ∧
    specCitations [c1docA, c1docB] =
      [⟨1, "B", "u2", "d"⟩, ⟨2, "A", "u1", "d"⟩] ∧
    ¬ formattedSources [c1docA, c1docB] = specCitations [c1docA, c1docB] := by
  decide

/-- C1 (amended): the SourceCitation ids returned by `generate_ai_response`
are unique, dense and 1-based, and are assigned in the order of the input
(extraction) list — id = position + 1 — not in the category-then-first-seen
order; that order is used only for the `Source [n]` labels of the OpenAI
context block. -/
theorem c1_ids_follow_input_order (rs : List ExtractedDocument) :
    (formattedSources rs).map SourceCitation.id =
      (List.range rs.length).map (fun i => i + 1) ∧
    ((formattedSources rs).map SourceCitation.id).Nodup := by
  have h : (formattedSources rs).map SourceCitation.id =
      (List.range rs.length).map (fun i => i + 1) := by
    unfold formattedSources
    rw [List.map_map]
    have h2 : (SourceCitation.id ∘ fun p : Nat × ExtractedDocument =>
        SourceCitation.mk (p.1 + 1) p.2.title p.2.url p.2.accessed_date) =
        ((fun i => i + 1) ∘ Prod.fst) := rfl
    rw [h2, ← List.map_map, List.enum_map_fst]
  refine ⟨h, ?_⟩
  rw [h]
  exact (List.nodup_range _).map (fun a b hab => by omega)

/-- The citation marker for id 1. -/
def markerOne : String := "[1]"

/-- A response text containing no citation marker. -/
def c2text : String := "A report without citation markers."

/-- A single formatted source for the C2 input. -/
def c2source : SourceCitation :=
  { id := 1, title := "Example Source", url := "http://example.com",
    accessed_date := "2024-01-01" }

/-- C2 fails on the code and the code contradicts its own comment ("Add
source citations to the response if they're not already included"): the
probe `any(f"[{i+1}]" for i in range(len(formatted_sources)))` tests the
truthiness of the marker strings themselves and never looks at the
response, so it is true whenever the source list is non-empty and the
Sources section is never appended — here the response text contains no
"[1]" marker, the source list is non-empty, and `parse_response` still
returns the text unchanged. -/
theorem c2_sources_never_appended :
    strContainsSub c2text markerOne = false ∧
    markersAny [c2source] = true ∧
    parse_response c2text [c2source] = c2text := by
  decide

theorem anthropicLoop_attempts_le (render : ApiOutcome → String) (fetch : Nat → ApiOutcome) :
    ∀ (fuel attempts : Nat), (anthropicLoop render fetch fuel attempts).2 ≤ attempts + fuel := by
  intro fuel
  induction fuel with
  | zero => intro attempts; simp [anthropicLoop]
  | succ n ih =>
    intro attempts
    unfold anthropicLoop
    match h : fetch attempts with
    | .ok (some text) => simp [h]
    | .ok none => simp [h]
    | .timeout =>
      simp only [h]
      by_cases hn : n = 0
      · simp [hn]
      · simp only [if_neg hn]
        have := ih (attempts + 1)
        omega
    | .statusError c =>
      simp only [h]
      by_cases hn : n = 0
      · simp [hn]
      · simp only [if_neg hn]
        have := ih (attempts + 1)
        omega

/-- A transport-failing fetch oracle: every attempt gets an HTTP 500. -/
def c3fetch500 : Nat → ApiOutcome := fun _ => .statusError 500

/-- A fixed `str(e)` oracle for concrete evaluations. -/
def exRender : ApiOutcome → String := fun _ => "error"

/-- C3 is false as stated: it says a non-timeout failure (here HTTP 500) is
followed by a descriptive error "immediately after the first attempt with
no retry", for every backend.  The Anthropic handler's `while` loop
(ai_integration.py lines 418-461) catches every exception — status errors
included — and retries: with every attempt answering HTTP 500 it issues 3
requests, not 1. -/
theorem c3_counterexample :
    (anthropicCall exRender c3fetch500).2 = 3 ∧ ¬ (anthropicCall exRender c3fetch500).2 = 1 := by
  decide

/-- C3 (amended): only the Anthropic backend retries, and it retries any
request exception — transport timeout or HTTP 4xx/5xx alike — making up to
3 attempts with a pause, then returning a descriptive error string; a
malformed response envelope after a successful request makes it return a
fixed parse-error string immediately.  The OpenAI, Gemini and Cohere
backends issue exactly one request and return a descriptive error string
on any failure, timeouts included. -/
theorem c3_retry_behavior (render : ApiOutcome → String) (fetch : Nat → ApiOutcome) :
    (openaiCall render fetch).2 = 1 ∧
    (geminiCall render fetch).2 = 1 ∧
    (cohereCall render fetch).2 = 1 ∧
    (anthropicCall render fetch).2 ≤ 3 ∧
    (transportFails (fetch 0) → transportFails (fetch 1) → transportFails (fetch 2) →
      anthropicCall render fetch =
        (some ("Error with Anthropic API: " ++ render (fetch 2) ++ apiErrTail), 3)) ∧
    (fetch 0 = .ok none → anthropicCall render fetch = (some anthropicParseError, 1)) := by
  refine ⟨?_, ?_, ?_, ?_, ?_, ?_⟩
  · unfold openaiCall
    match h : fetch 0 with
    | .ok (some t) => simp [h]
    | .ok none => simp [h]
    | .timeout => simp [h]
    | .statusError c => simp [h]
  · unfold geminiCall
    match h : fetch 0 with
    | .ok (some t) => simp [h]
    | .ok none => simp [h]
    | .timeout => simp [h]
    | .statusError c => simp [h]
  · unfold cohereCall
    match h : fetch 0 with
    | .ok (some t) => simp [h]
    | .ok none => simp [h]
    | .timeout => simp [h]
    | .statusError c => simp [h]
  · exact anthropicLoop_attempts_le render fetch 3 0
  · intro h0 h1 h2
    unfold anthropicCall anthropicLoop
    match hf0 : fetch 0 with
    | .ok e => rw [hf0] at h0; exact absurd h0 (by simp [transportFails])
    | .timeout =>
      simp only [hf0]
      unfold anthropicLoop
      match hf1 : fetch 1 with
      | .ok e => rw [hf1] at h1; exact absurd h1 (by simp [transportFails])
      | .timeout =>
        simp only [hf1]
        unfold anthropicLoop
        match hf2 : fetch 2 with
        | .ok e => rw [hf2] at h2; exact absurd h2 (by simp [transportFails])
        | .timeout => simp [hf2]
        | .statusError c => simp [hf2]
      | .statusError c =>
        simp only [hf1]
        unfold anthropicLoop
        match hf2 : fetch 2 with
        | .ok e => rw [hf2] at h2; exact absurd h2 (by simp [transportFails])
        | .timeout => simp [hf2]
        | .statusError c2 => simp [hf2]
    | .statusError c0 =>
      simp only [hf0]
      unfold anthropicLoop
      match hf1 : fetch 1 with
      | .ok e => rw [hf1] at h1; exact absurd h1 (by simp [transportFails])
      | .timeout =>
        simp only [hf1]
        unfold anthropicLoop
        match hf2 : fetch 2 with
        | .ok e => rw [hf2] at h2; exact absurd h2 (by simp [transportFails])
        | .timeout => simp [hf2]
        | .statusError c => simp [hf2]
      | .statusError c =>
        simp only [hf1]
        unfold anthropicLoop
        match hf2 : fetch 2 with
        | .ok e => rw [hf2] at h2; exact absurd h2 (by simp [transportFails])
        | .timeout => simp [hf2]
        | .statusError c2 => simp [hf2]
  · intro h0
    unfold anthropicCall anthropicLoop
    simp [h0]

/-- An always-timing-out fetch oracle. -/
def c3fetchTimeout : Nat → ApiOutcome := fun _ => .timeout

/-- A fetch oracle answering 2xx with a malformed envelope. -/
def c3fetchBadJson : Nat → ApiOutcome := fun _ => .ok none

/-- Witness for `c3_retry_behavior`: a concrete always-timing-out oracle
satisfies its transport-failure hypotheses (3 attempts, then the rendered
error), and a concrete malformed-envelope oracle satisfies the last
conjunct's hypothesis (1 attempt, fixed parse error). -/
theorem c3_retry_behavior_witness :
    anthropicCall exRender c3fetchTimeout =
      (some ("Error with Anthropic API: " ++ exRender (c3fetchTimeout 2) ++ apiErrTail), 3) ∧
    anthropicCall exRender c3fetchBadJson = (some anthropicParseError, 1) :=
  ⟨(c3_retry_behavior exRender c3fetchTimeout).2.2.2.2.1 trivial trivial trivial,
   (c3_retry_behavior exRender c3fetchBadJson).2.2.2.2.2 rfl⟩

/-- First custom URL of the C4 counterexample. -/
def c4url1 : String := "http://a.com/x"

/-- Second custom URL of the C4 counterexample. -/
def c4url2 : String := "http://b.com/y"

/-- C4 is false as stated: each custom URL is injected with
`unique_results.insert(0, ...)` (scraper.py line 188), so each later custom
URL is pushed in front of the earlier ones and the head of the candidate
sequence holds the custom entries in REVERSE user-supplied order.  With no
organic results and custom URLs [u1, u2], the candidate list is
[custom u2, custom u1], not [custom u1, custom u2]. -/
theorem c4_counterexample :
    candidateSet [] [c4url1, c4url2] = [customHit c4url2, customHit c4url1] ∧
    (customHit c4url2).title = "Custom Source: b.com" ∧
    ¬ candidateSet [] [c4url1, c4url2] = [customHit c4url1, customHit c4url2] := by
  decide

theorem injectCustom_reverse (urls : List String) :
    ∀ (seen : List String) (unique : List SearchHit), urls.Nodup →
      (∀ u ∈ urls, u ∉ seen) →
      injectCustom seen unique urls = urls.reverse.map customHit ++ unique := by
  induction urls with
  | nil => intro seen unique _ _; simp [injectCustom]
  | cons u rest ih =>
    intro seen unique hnodup hfresh
    have hu : u ∉ seen := hfresh u (by simp)
    rw [injectCustom, if_pos hu]
    rw [ih (u :: seen) (customHit u :: unique) (List.Nodup.of_cons hnodup)]
    · simp
    · intro v hv
      simp only [List.mem_cons]
      rintro (rfl | hvs)
      · exact (List.nodup_cons.mp hnodup).1 hv
      · exact hfresh v (by simp [hv]) hvs

theorem dedupLoop_seen_subset (hits : List SearchHit) :
    ∀ (seen : List String) (u : String), u ∈ (dedupLoop seen hits).1 →
      u ∈ seen ∨ u ∈ hits.map SearchHit.url := by
  induction hits with
  | nil => intro seen u h; simp [dedupLoop] at h; exact Or.inl h
  | cons r rest ih =>
    intro seen u h
    rw [dedupLoop] at h
    by_cases hc : r.url ≠ "" ∧ r.url ∉ seen
    · rw [if_pos hc] at h
      rcases ih (r.url :: seen) u h with hs | hr
      · rcases List.mem_cons.mp hs with rfl | hs2
        · exact Or.inr (by simp)
        · exact Or.inl hs2
      · exact Or.inr (by simp [hr])
    · rw [if_neg hc] at h
      rcases ih seen u h with hs | hr
      · exact Or.inl hs
      · exact Or.inr (by simp [hr])

/-- C4 (amended): for every list of pairwise-distinct custom URLs none of
which duplicates an organic result URL, the candidate sequence produced by
dedup plus custom-URL injection has all the custom-URL entries at its head
— in REVERSE of the user-supplied order — each tagged category "custom"
with title "Custom Source: <host>" and snippet "User-provided source",
followed by the deduplicated organic results. -/
theorem c4_custom_head (hits : List SearchHit) (urls : List String)
    (hnodup : urls.Nodup) (hfresh : ∀ u ∈ urls, u ∉ hits.map SearchHit.url) :
    candidateSet hits urls = urls.reverse.map customHit ++ dedupResults hits ∧
    ∀ u, (customHit u).category = some "custom" ∧
      (customHit u).snippet = "User-provided source" ∧
      (customHit u).title = customTitleHead ++ netloc u := by
  constructor
  · unfold candidateSet dedupResults
    apply injectCustom_reverse urls (dedupLoop [] hits).1 (dedupLoop [] hits).2 hnodup
    intro u hu hseen
    rcases dedupLoop_seen_subset hits [] u hseen with h0 | hmem
    · simp at h0
    · exact hfresh u hu hmem
  · intro u
    exact ⟨rfl, rfl, rfl⟩

/-- Witness for `c4_custom_head`: two concrete distinct custom URLs and no
organic hits. -/
theorem c4_custom_head_witness :
    candidateSet [] [c4url1, c4url2] =
      [c4url1, c4url2].reverse.map customHit ++ dedupResults [] ∧
    ∀ u, (customHit u).category = some "custom" ∧
      (customHit u).snippet = "User-provided source" ∧
      (customHit u).title = customTitleHead ++ netloc u :=
  c4_custom_head [] [c4url1, c4url2] (by decide) (by decide)

/-- C5: when the extraction pipeline hands `generate_ai_response` an empty
document list, it never invokes any generation backend (`invoked = none`),
returns the templated fallback report of `_generate_dummy_response`, and
the citation list is empty; for any non-empty query the fallback report is
a non-empty string. -/
theorem c5_empty_fallback (gen : Backend → String) (query model : String)
    (h : query ≠ "") :
    generate_ai_response gen query [] model =
      { response := _generate_dummy_response query [], sources := [], invoked := none } ∧
    _generate_dummy_response query [] ≠ "" := by
  constructor
  · rfl
  · rw [_generate_dummy_response, if_neg h]
    apply string_ne_empty_of_pyLen_pos
    rw [pyLen_append]
    have hs : 0 < pyLen (sourcesSection []) := by decide
    omega

/-- A concrete non-empty query for the C5 witness. -/
def c5query : String := "solar panels"

/-- A trivial backend-text oracle for concrete instantiations. -/
def exGen : Backend → String := fun _ => "report text"

/-- A model-name argument for concrete instantiations. -/
def c5model : String := "GPT-4o mini"

/-- Witness for `c5_empty_fallback` at a concrete non-empty query. -/
theorem c5_empty_fallback_witness :
    generate_ai_response exGen c5query [] c5model =
      { response := _generate_dummy_response c5query [], sources := [], invoked := none } ∧
    _generate_dummy_response c5query [] ≠ "" :=
  c5_empty_fallback exGen c5query c5model (by decide)

theorem processCandidates_eq_take_filterMap (extract : String → String) (now : String)
    (depth : Nat) :
    ∀ (cands : List SearchHit) (count : Nat),
      processCandidates extract now depth count cands =
        (cands.filterMap (docOf extract now)).take (depth - count) := by
  intro cands
  induction cands with
  | nil => intro count; simp [processCandidates]
  | cons r rest ih =>
    intro count
    rw [processCandidates]
    by_cases hc : depth ≤ count
    · rw [if_pos hc, Nat.sub_eq_zero_of_le hc, List.take_zero]
    · rw [if_neg hc]
      match hd : docOf extract now r with
      | none => rw [List.filterMap_cons_none hd, ih count]
      | some d =>
        rw [List.filterMap_cons_some hd, ih (count + 1)]
        have hpos : 0 < depth - count := by omega
        obtain ⟨k, hk⟩ : ∃ k, depth - count = k + 1 := ⟨depth - count - 1, by omega⟩
        rw [hk]
        rw [List.take_succ_cons]
        have : depth - (count + 1) = k := by omega
        rw [this]

/-- C9: the extraction phase of `search_and_extract_content` returns
exactly the first `search_depth` successfully extractable candidates — it
stops as soon as the quota is filled, candidates that are skipped (empty
url, binary/document extension, failed or too-short extraction, i.e.
`docOf = none`) never count toward the quota, and an exhausted candidate
list yields whatever was collected (possibly nothing) — so in particular at
most `search_depth` documents are returned. -/
theorem c9_quota_and_skips (extract : String → String) (now : String) (depth : Nat)
    (cands : List SearchHit) :
    extractionPhase extract now depth cands =
      (cands.filterMap (docOf extract now)).take depth ∧
    (extractionPhase extract now depth cands).length ≤ depth := by
  have h : extractionPhase extract now depth cands =
      (cands.filterMap (docOf extract now)).take depth := by
    unfold extractionPhase
    rw [processCandidates_eq_take_filterMap]
    simp
  exact ⟨h, by rw [h]; exact List.length_take_le _ _⟩

theorem pyLen_pySlice (s : String) (n : Nat) : pyLen (pySlice s n) = min n (pyLen s) := by
  simp [pyLen, pySlice]

/-- C6: every document produced by the extraction phase has content of at
least 100 characters; its content either fits in `maxContentLength`
(10,000) characters, or the extracted raw text was longer than 10,000
characters and the stored content is exactly its first 10,000 characters
followed by "..." (hence 10,003 characters in all). -/
theorem c6_content_bounds (extract : String → String) (now : String) (depth : Nat)
    (cands : List SearchHit) (d : ExtractedDocument)
    (hd : d ∈ extractionPhase extract now depth cands) :
    100 ≤ pyLen d.content ∧
    (pyLen d.content ≤ maxContentLength ∨
      (d.content = pySlice (extract d.url) maxContentLength ++ ellipsisMarker ∧
        pyLen d.content = maxContentLength + 3 ∧
        maxContentLength < pyLen (extract d.url))) := by
  rw [extractionPhase, processCandidates_eq_take_filterMap] at hd
  have hd2 := List.mem_of_mem_take hd
  obtain ⟨r, _, hr⟩ := List.mem_filterMap.mp hd2
  rw [docOf] at hr
  by_cases h1 : r.url = ""
  · rw [if_pos h1] at hr; exact absurd hr (by simp)
  rw [if_neg h1] at hr
  by_cases h2 : isFileUrl r.url = true
  · rw [if_pos h2] at hr; exact absurd hr (by simp)
  rw [if_neg h2] at hr
  by_cases h3 : extract r.url = "" ∨ pyLen (pyStrip (extract r.url)) < 100
  · rw [if_pos h3] at hr; exact absurd hr (by simp)
  rw [if_neg h3] at hr
  have hlenS : 100 ≤ pyLen (pyStrip (extract r.url)) := by
    rcases not_or.mp h3 with ⟨_, hb⟩
    omega
  have hlen : 100 ≤ pyLen (extract r.url) :=
    le_trans hlenS (pyLen_pyStrip_le (extract r.url))
  have hd3 : d =
      { title := r.title
        url := r.url
        snippet := r.snippet
        content := (if maxContentLength < pyLen (extract r.url) then
            pySlice (extract r.url) maxContentLength ++ ellipsisMarker
          else extract r.url)
        accessed_date := now
        category := r.category.getD defaultCategory } :=
    (Option.some.inj hr).symm
  have hurl : d.url = r.url := by rw [hd3]
  by_cases h4 : maxContentLength < pyLen (extract r.url)
  · have hcontent : d.content = pySlice (extract r.url) maxContentLength ++ ellipsisMarker := by
      rw [hd3]; simp only [if_pos h4]
    have hclen : pyLen d.content = maxContentLength + 3 := by
      rw [hcontent, pyLen_append, pyLen_pySlice]
      have : min maxContentLength (pyLen (extract r.url)) = maxContentLength := by omega
      rw [this]
      decide
    constructor
    · rw [hclen]; unfold maxContentLength; omega
    · right
      refine ⟨?_, hclen, ?_⟩
      · rw [hcontent, hurl]
      · rw [hurl]; exact h4
  · have hcontent : d.content = extract r.url := by
      rw [hd3]; simp only [if_neg h4]
    constructor
    · rw [hcontent]; exact hlen
    · left; rw [hcontent]; omega

/-- A 150-character extraction result for the C6 witness. -/
def c6longContent : String := ⟨List.replicate 150 'a'⟩

/-- Extraction oracle used by the C6 witness. -/
def c6extract : String → String := fun _ => c6longContent

/-- Candidate URL of the C6 witness. -/
def c6url : String := "http://example.com/page"

/-- Candidate hit of the C6 witness. -/
def c6hit : SearchHit := { title := "T", url := c6url, snippet := "", category := none }

/-- Timestamp-oracle value of the C6 witness. -/
def c6now : String := "2024-01-01"

/-- The document the C6 witness pipeline produces. -/
def c6doc : ExtractedDocument :=
  { title := "T", url := c6url, snippet := "", content := c6longContent,
    accessed_date := c6now, category := defaultCategory }

set_option maxRecDepth 4000 in
/-- Witness for `c6_content_bounds`: a concrete 150-character extraction
flows through the pipeline and lands in the first (un-truncated) branch. -/
theorem c6_content_bounds_witness :
    100 ≤ pyLen c6doc.content ∧
    (pyLen c6doc.content ≤ maxContentLength ∨
      (c6doc.content = pySlice (c6extract c6doc.url) maxContentLength ++ ellipsisMarker ∧
        pyLen c6doc.content = maxContentLength + 3 ∧
        maxContentLength < pyLen (c6extract c6doc.url))) :=
  c6_content_bounds c6extract c6now 3 [c6hit] c6doc (by decide)

/-- A hit with an empty url for the C7 counterexample. -/
def c7hit : SearchHit := { title := "T", url := "", snippet := "s", category := none }

/-- C7 is false as stated: the dedup loop requires a truthy url
(`if url and url not in seen_urls`, scraper.py line 179), so a hit whose
url is the empty string is dropped outright — its URL occurs once in the
input but zero times in the output, not "exactly once". -/
theorem c7_counterexample :
    ((dedupResults [c7hit]).map SearchHit.url).count "" = 0 ∧
    (([c7hit] : List SearchHit).map SearchHit.url).count "" = 1 ∧
    ¬ ((dedupResults [c7hit]).map SearchHit.url).count "" = 1 := by
  decide

theorem dedupLoop_filter (u : String) :
    ∀ (hits : List SearchHit) (seen : List String),
      ((dedupLoop seen hits).2.filter (fun h => h.url = u)) =
        if u = "" ∨ u ∈ seen then [] else ((hits.filter (fun h => h.url = u)).take 1) := by
  intro hits
  induction hits with
  | nil =>
    intro seen
    by_cases hc : u = "" ∨ u ∈ seen
    · simp [dedupLoop, hc]
    · simp [dedupLoop, hc]
  | cons r rest ih =>
    intro seen
    rw [dedupLoop]
    by_cases hc : r.url ≠ "" ∧ r.url ∉ seen
    · rw [if_pos hc]
      by_cases hu : r.url = u
      · have hfilter : (r :: (dedupLoop (r.url :: seen) rest).2).filter
            (fun h => h.url = u) = r :: ((dedupLoop (r.url :: seen) rest).2.filter
            (fun h => h.url = u)) := by
          simp [List.filter_cons, hu]
        rw [hfilter, ih (r.url :: seen)]
        have hmem : u = "" ∨ u ∈ r.url :: seen := Or.inr (by rw [hu]; exact List.mem_cons_self _ _)
        rw [if_pos hmem]
        have hno : ¬ (u = "" ∨ u ∈ seen) := by
          rintro (h0 | hs)
          · exact hc.1 (hu.trans h0)
          · exact hc.2 (by rw [hu]; exact hs)
        rw [if_neg hno]
        simp [List.filter_cons, hu]
      · have hfilter : (r :: (dedupLoop (r.url :: seen) rest).2).filter
            (fun h => h.url = u) = ((dedupLoop (r.url :: seen) rest).2.filter
            (fun h => h.url = u)) := by
          simp [List.filter_cons, hu]
        rw [hfilter, ih (r.url :: seen)]
        have hiff : (u = "" ∨ u ∈ r.url :: seen) ↔ (u = "" ∨ u ∈ seen) := by
          constructor
          · rintro (h0 | hs)
            · exact Or.inl h0
            · rcases List.mem_cons.mp hs with heq | hs2
              · exact absurd heq.symm hu
              · exact Or.inr hs2
          · rintro (h0 | hs)
            · exact Or.inl h0
            · exact Or.inr (List.mem_cons_of_mem _ hs)
        have hrest : (r :: rest).filter (fun h => h.url = u) =
            rest.filter (fun h => h.url = u) := by
          simp [List.filter_cons, hu]
        rw [hrest]
        by_cases hc2 : u = "" ∨ u ∈ seen
        · rw [if_pos (hiff.mpr hc2), if_pos hc2]
        · rw [if_neg (fun h => hc2 (hiff.mp h)), if_neg hc2]
    · rw [if_neg hc]
      rw [ih seen]
      have hru : r.url = "" ∨ r.url ∈ seen := by
        by_cases h0 : r.url = ""
        · exact Or.inl h0
        · right
          by_contra hs
          exact hc ⟨h0, hs⟩
      by_cases hu : r.url = u
      · have hcond : u = "" ∨ u ∈ seen := by rw [← hu]; exact hru
        rw [if_pos hcond, if_pos hcond]
      · have hrest : (r :: rest).filter (fun h => h.url = u) =
            rest.filter (fun h => h.url = u) := by
          simp [List.filter_cons, hu]
        rw [hrest]

/-- C7 (amended): the deduplication step keeps, for each distinct NONEMPTY
url, exactly the first-occurring entry (title, snippet and category
included), discarding each later entry with the same url regardless of its
category — and it drops every entry whose url is empty. -/
theorem c7_dedup_first_occurrence (hits : List SearchHit) (u : String) :
    (dedupResults hits).filter (fun h => h.url = u) =
      (if u = "" then [] else ((hits.filter (fun h => h.url = u)).take 1)) ∧
    ((dedupResults hits).filter (fun h => h.url = u)).length ≤ 1 := by
  have h := dedupLoop_filter u hits []
  have hiff : (u = "" ∨ u ∈ ([] : List String)) ↔ u = "" := by simp
  constructor
  · unfold dedupResults
    rw [h]
    by_cases h0 : u = ""
    · rw [if_pos (hiff.mpr h0), if_pos h0]
    · rw [if_neg (fun hh => h0 (hiff.mp hh)), if_neg h0]
  · unfold dedupResults
    rw [h]
    by_cases h0 : u = "" ∨ u ∈ ([] : List String)
    · rw [if_pos h0]; simp
    · rw [if_neg h0]
      exact le_trans (List.length_take_le _ _) (le_refl 1)

/-- The attempt got a successful response whose content-type is not HTML
(the immediate-return branch at scraper.py lines 57-59). -/
def okNonHtml : FetchOutcome → Prop
  | .resp ok ct _ => ok = true ∧ strContainsSub (pyLower ct) htmlMarker = false
  | .exn => False

/-- The attempt fails in one of the ways the loop retries: a raised request
exception, a non-ok HTTP status, or a successful HTML response from which
both extraction strategies get less than 100 stripped characters. -/
def attemptRetries (traf : String → Option String) (soupText : String → String) :
    FetchOutcome → Prop
  | .exn => True
  | .resp ok ct body =>
      ok = false ∨
        (strContainsSub (pyLower ct) htmlMarker = true ∧
          trafHit traf body = none ∧ soupHit soupText body = none)

theorem getContentLoop_retry_step (traf : String → Option String)
    (soupText : String → String) (fetch : Nat → FetchOutcome)
    (remaining attempt : Nat) (h : attemptRetries traf soupText (fetch attempt)) :
    getContentLoop traf soupText fetch (remaining + 1) attempt =
      getContentLoop traf soupText fetch remaining (attempt + 1) := by
  match hf : fetch attempt with
  | .exn => simp [getContentLoop, hf]
  | .resp ok ct body =>
    rw [hf] at h
    rcases h with hok | ⟨hct, htraf, hsoup⟩
    · subst hok; simp [getContentLoop, hf]
    · by_cases hok2 : ok = false
      · simp [getContentLoop, hf, hok2]
      · have hok3 : ok = true := by
          cases ok
          · exact absurd rfl hok2
          · rfl
        subst hok3
        simp [getContentLoop, hf, hct, htraf, hsoup]

/-- A first-attempt non-HTML response for the C8 counterexample and
witness oracles. -/
def pdfType : String := "application/pdf"

/-- An HTML content-type for the C8 oracles. -/
def htmlType : String := "text/html; charset=utf-8"

/-- A 120-character extraction result for the C8 oracles. -/
def c8good : String := ⟨List.replicate 120 'b'⟩

/-- Trafilatura oracle for the C8 oracles: always extracts `c8good`. -/
def c8traf : String → Option String := fun _ => some c8good

/-- BeautifulSoup oracle for the C8 oracles: always empty. -/
def c8soup : String → String := fun _ => ""

/-- Fetch oracle whose first attempt is a successful non-HTML response and
whose later attempts are successful HTML responses. -/
def c8fetchA : Nat → FetchOutcome :=
  fun n => if n = 1 then .resp true pdfType "" else .resp true htmlType ""

/-- Fetch oracle whose first attempt is a failed (non-ok) response and
whose later attempts are successful HTML responses. -/
def c8fetchB : Nat → FetchOutcome :=
  fun n => if n = 1 then .resp false pdfType "" else .resp true htmlType ""

set_option maxRecDepth 4000 in
/-- C8 is false as stated: a successful response whose content-type is not
HTML makes `get_website_text_content` return `""` at once (scraper.py
lines 57-59) — it does NOT merely fail that attempt with the whole attempt
retried up to MAX_RETRIES.  With oracle A (attempt 1: ok non-HTML;
attempt 2 would be good HTML) the function stops after 1 attempt with "";
with oracle B, identical except attempt 1 is a non-ok status (a genuinely
retried failure), it proceeds to attempt 2 and returns the content —
showing the retry the claim promises never happens for non-HTML. -/
theorem c8_counterexample :
    get_website_text_content c8traf c8soup c8fetchA = ("", 1) ∧
    get_website_text_content c8traf c8soup c8fetchB = (c8good, 2) := by
  decide

/-- C8 (amended): a successful response whose content-type is not HTML
terminates `get_website_text_content` immediately with `""` (no further
attempts); the failures that ARE retried — request exceptions, non-ok
HTTP statuses, and HTML pages from which both extraction strategies get
less than 100 stripped characters — drive the whole attempt loop up to
MAX_RETRIES (3) times with a pause between attempts, after which `""` is
returned. -/
theorem c8_retry_behavior (traf : String → Option String) (soupText : String → String)
    (fetch : Nat → FetchOutcome) :
    (okNonHtml (fetch 1) → get_website_text_content traf soupText fetch = ("", 1)) ∧
    (attemptRetries traf soupText (fetch 1) → attemptRetries traf soupText (fetch 2) →
      attemptRetries traf soupText (fetch 3) →
      get_website_text_content traf soupText fetch = ("", 3)) := by
  constructor
  · intro h
    match hf : fetch 1 with
    | .exn => rw [hf] at h; exact absurd h (by simp [okNonHtml])
    | .resp ok ct body =>
      rw [hf] at h
      obtain ⟨hok, hct⟩ := h
      subst hok
      unfold get_website_text_content MAX_RETRIES
      simp [getContentLoop, hf, hct]
  · intro h1 h2 h3
    unfold get_website_text_content MAX_RETRIES
    have e3 : (3 : Nat) = 2 + 1 := rfl
    rw [e3, getContentLoop_retry_step traf soupText fetch 2 1 h1]
    have e2 : (2 : Nat) = 1 + 1 := rfl
    rw [e2, getContentLoop_retry_step traf soupText fetch 1 (1 + 1) h2]
    have e1 : (1 : Nat) = 0 + 1 := rfl
    rw [e1]
    rw [getContentLoop_retry_step traf soupText fetch 0 (0 + 1 + 1 + 1) h3]
    simp [getContentLoop]

/-- A fetch oracle raising a request exception on every attempt. -/
def c8exnFetch : Nat → FetchOutcome := fun _ => .exn

/-- A fetch oracle answering every attempt with a successful non-HTML
response. -/
def c8pdfFetch : Nat → FetchOutcome := fun _ => .resp true pdfType ""

/-- Witness for `c8_retry_behavior`: the always-raising oracle satisfies
the retriable hypotheses (3 attempts then ""), and the always-non-HTML
oracle satisfies the non-HTML hypothesis (1 attempt then ""). -/
theorem c8_retry_behavior_witness :
    get_website_text_content c8traf c8soup c8exnFetch = ("", 3) ∧
    get_website_text_content c8traf c8soup c8pdfFetch = ("", 1) :=
  ⟨(c8_retry_behavior c8traf c8soup c8exnFetch).2 trivial trivial trivial,
   (c8_retry_behavior c8traf c8soup c8pdfFetch).1 ⟨rfl, by decide⟩⟩

/-- C10: for every model-name string other than the four recognized names,
`generate_ai_response` (when it generates at all, i.e. some input document
has truthy content) silently dispatches to the OpenAI backend with its
default model "gpt-4o-mini" — the `else` branch of ai_integration.py
lines 81-83 — rather than failing or reporting an unknown-model error. -/
theorem c10_unknown_model_defaults_to_openai (gen : Backend → String) (query model : String)
    (rs : List ExtractedDocument)
    (h1 : model ≠ "GPT-4o mini") (h2 : model ≠ "Gemini") (h3 : model ≠ "Claude")
    (h4 : model ≠ "Cohere") (h5 : rs.filter (fun r => r.content ≠ "") ≠ []) :
    (generate_ai_response gen query rs model).invoked =
      some (Backend.openai defaultOpenAiModel) ∧
    dispatchBackend model = Backend.openai defaultOpenAiModel := by
  have hdisp : dispatchBackend model = Backend.openai defaultOpenAiModel := by
    unfold dispatchBackend
    rw [if_neg h1, if_neg h2, if_neg h3, if_neg h4]
  have hne : rs ≠ [] := by
    intro he
    subst he
    simp at h5
  refine ⟨?_, hdisp⟩
  unfold generate_ai_response
  rw [if_neg hne, if_neg h5, hdisp]

/-- A model name outside the recognized set, for the C10 witness. -/
def c10model : String := "Llama 3"

/-- A document with truthy content for the C10 witness. -/
def c10doc : ExtractedDocument :=
  { title := "T", url := "u", snippet := "", content := "c", accessed_date := "d",
    category := defaultCategory }

/-- Query string of the C10 witness. -/
def c10query : String := "q"

/-- Witness for `c10_unknown_model_defaults_to_openai` at the concrete
unrecognized model name "Llama 3". -/
theorem c10_unknown_model_witness :
    (generate_ai_response exGen c10query [c10doc] c10model).invoked =
      some (Backend.openai defaultOpenAiModel) ∧
    dispatchBackend c10model = Backend.openai defaultOpenAiModel :=
  c10_unknown_model_defaults_to_openai exGen c10query c10model [c10doc]
    (by decide) (by decide) (by decide) (by decide) (by decide)
